import Mathlib

/-!
Verification of the Circuit Graph & Code/State Synthesis Engine of
`Pag_Web_Simulador` (source: `src/src/app/App.tsx`).

The data model (components, pins, connections), the code generator
`generateCode`, the simulation-state deriver `updateLedStates`, and the
store mutators (`addComponent`, `updatePotValue`, `handlePinClick`,
clearing of connections) are embedded below as executable Lean
definitions, translated directly from the TypeScript source.  Strings
that the generator emits are reproduced verbatim (braces written with
the escapes \x7b and \x7d).
-/

namespace Sim

/-- `ComponentType` from App.tsx line 7: the closed set of component kinds. -/
inductive ComponentType
  | esp8266
  | led
  | resistor
  | potentiometer
  deriving DecidableEq

/-- Pin side tag, `'left' | 'right'` in the source. -/
inductive Side
  | left
  | right
  deriving DecidableEq

/-- `Pin` interface (App.tsx lines 9-15). -/
structure Pin where
  id : String
  label : String
  x : Int
  y : Int
  side : Side
  deriving DecidableEq

/-- The kind-specific `config` payload of a component.  In the source it is
an untyped object; the engine only ever reads `config.color` (LED colour)
and `config.value` (resistor ohms / potentiometer reading), so it is
modelled as a record of those two optional fields. -/
structure Config where
  color : Option String
  value : Option Int
  deriving DecidableEq

/-- `Component` interface (App.tsx lines 17-24). -/
structure Component where
  id : String
  type : ComponentType
  x : Int
  y : Int
  config : Config
  pins : List Pin
  deriving DecidableEq

/-- `Connection` interface (App.tsx lines 26-32): a nominally directed
edge between two `(componentId, pinId)` endpoints. -/
structure Connection where
  id : String
  fromComponentId : String
  fromPinId : String
  toComponentId : String
  toPinId : String
  deriving DecidableEq

/-- `PinConnection` interface (App.tsx lines 34-37): the pending endpoint
of the two-click connection gesture. -/
structure PinConnection where
  componentId : String
  pinId : String
  deriving DecidableEq

/-- An entry of the `ledConnections` / `potConnections` arrays built by
`generateCode` (App.tsx lines 116-117): `{compId: string, pin: string}`. -/
structure Binding where
  compId : String
  pin : String
  deriving DecidableEq

/-- The part of the App state the engine operates on: the component list
and the connection list. -/
structure AppState where
  components : List Component
  connections : List Connection
  deriving DecidableEq

/-- JS `espPin.split('_')[0]` (App.tsx lines 131 and 146): the prefix of
the pin id up to (excluding) the first underscore; the whole string when
no underscore occurs. -/
def splitHead (s : String) : String :=
  String.mk (s.toList.takeWhile (fun c => !(c == '_')))

/-- `components.find(c => c.id === cid)`, used when resolving a
connection endpoint to its component. -/
def componentById (components : List Component) (cid : String) : Option Component :=
  components.find? (fun c => c.id == cid)

/-- Extraction of the controller-side pin id of a matched connection
(App.tsx lines 129 and 144): if the wire starts at the ESP the pin is
`fromPinId`, otherwise `toPinId`. -/
def espPinOf (espId : String) (conn : Connection) : String :=
  if conn.fromComponentId == espId then conn.fromPinId else conn.toPinId

/-- The `ledConnections` array of `generateCode` (App.tsx lines 119-133):
for each component of type `led`, in component order, the first connection
joining the LED's `anode` pin to the controller (in either orientation)
contributes one entry carrying the normalized controller pin name. -/
def ledBindings (components : List Component) (connections : List Connection)
    (espId : String) : List Binding :=
  components.filterMap (fun comp =>
    if comp.type == ComponentType.led then
      match connections.find? (fun c =>
        (c.fromComponentId == comp.id && c.fromPinId == "anode" && c.toComponentId == espId) ||
        (c.toComponentId == comp.id && c.toPinId == "anode" && c.fromComponentId == espId)) with
      | some conn => some ⟨comp.id, splitHead (espPinOf espId conn)⟩
      | none => none
    else none)

/-- The `potConnections` array of `generateCode` (App.tsx lines 136-149):
same pattern as `ledBindings` but against the potentiometer's `signal`
pin. -/
def potBindings (components : List Component) (connections : List Connection)
    (espId : String) : List Binding :=
  components.filterMap (fun comp =>
    if comp.type == ComponentType.potentiometer then
      match connections.find? (fun c =>
        (c.fromComponentId == comp.id && c.fromPinId == "signal" && c.toComponentId == espId) ||
        (c.toComponentId == comp.id && c.toPinId == "signal" && c.fromComponentId == espId)) with
      | some conn => some ⟨comp.id, splitHead (espPinOf espId conn)⟩
      | none => none
    else none)

/-- `ledConnections.forEach((led, idx) => push('#define LED_PIN_...'))`
(App.tsx lines 152-154). -/
def ledDefineLines (idx : Nat) : List Binding → List String
  | [] => []
  | b :: bs =>
      ("#define LED_PIN_" ++ toString (idx + 1) ++ " " ++ b.pin) :: ledDefineLines (idx + 1) bs

/-- `potConnections.forEach((pot, idx) => push('#define POT_PIN_...'))`
(App.tsx lines 156-158). -/
def potDefineLines (idx : Nat) : List Binding → List String
  | [] => []
  | b :: bs =>
      ("#define POT_PIN_" ++ toString (idx + 1) ++ " " ++ b.pin) :: potDefineLines (idx + 1) bs

/-- A `forEach((x, idx) => push(pre + (idx+1) + post))` loop whose body
uses only the index, applied `n` times (the setup/loop emission loops of
`generateCode`). -/
def numberedLines (pre post : String) (idx : Nat) : Nat → List String
  | 0 => []
  | Nat.succ n => (pre ++ toString (idx + 1) ++ post) :: numberedLines pre post (idx + 1) n

/-- The controller-present body of `generateCode` (App.tsx lines
107-231): header, pin defines, optional globals, setup block, and one of
the three loop templates (potentiometer-driven PWM, simple blink, idle),
joined with newlines. -/
def generateCodeWithEsp (components : List Component) (connections : List Connection)
    (esp : Component) : String :=
  let leds := ledBindings components connections esp.id
  let pots := potBindings components connections esp.id
  let pinDefinitions := ledDefineLines 0 leds ++ potDefineLines 0 pots
  let codeLines : List String :=
      ["// Código generado automáticamente para NodeMCU ESP8266", ""]
      ++ (if 0 < pinDefinitions.length then pinDefinitions ++ [""] else [])
      ++ (if 0 < pots.length ∧ 0 < leds.length then
            ["int potValue = 0;", "int brightness = 0;", ""]
          else [])
      ++ ["void setup() \x7b", "  Serial.begin(115200);"]
      ++ numberedLines "  pinMode(LED_PIN_" ", OUTPUT);" 0 leds.length
      ++ ["  Serial.println(\"ESP8266 iniciado\");", "\x7d", ""]
      ++ ["void loop() \x7b"]
      ++ (if 0 < pots.length ∧ 0 < leds.length then
            ["  // Leer valor del potenciómetro"]
            ++ numberedLines "  potValue = analogRead(POT_PIN_" ");" 0 pots.length
            ++ ["  ",
                "  // Convertir a rango PWM (0-1023 a 0-255)",
                "  brightness = map(potValue, 0, 1023, 0, 255);",
                "  ",
                "  // Controlar intensidad del LED con PWM"]
            ++ numberedLines "  analogWrite(LED_PIN_" ", brightness);" 0 leds.length
            ++ ["  ",
                "  // Imprimir valores en monitor serial",
                "  Serial.print(\"Potenciometro: \");",
                "  Serial.print(potValue);",
                "  Serial.print(\" | Brillo LED: \");",
                "  Serial.println(brightness);",
                "  ",
                "  delay(100);"]
          else if 0 < leds.length then
            ["  // Parpadeo simple del LED"]
            ++ numberedLines "  digitalWrite(LED_PIN_" ", HIGH);" 0 leds.length
            ++ ["  delay(500);"]
            ++ numberedLines "  digitalWrite(LED_PIN_" ", LOW);" 0 leds.length
            ++ ["  delay(500);"]
          else
            ["  // Código principal aquí", "  delay(100);"])
      ++ ["\x7d"]
  String.intercalate "\n" codeLines

/-- `generateCode` (App.tsx lines 97-232): the full code synthesizer.
Emits the fixed placeholder comment when no ESP8266 component exists,
otherwise the controller-present body. -/
def generateCode (components : List Component) (connections : List Connection) : String :=
  match components.find? (fun c => c.type == ComponentType.esp8266) with
  | none => "// Agrega un ESP8266 para comenzar"
  | some esp => generateCodeWithEsp components connections esp

/-- JS `x || d` for a possibly-missing integer `x` (App.tsx line 684,
`potComp?.config?.value || 512`): both an absent value and the value `0`
are falsy, so both yield the default. -/
def jsOrInt : Option Int → Int → Int
  | some v, d => if v = 0 then d else v
  | none, d => d

/-- The `ledToEspConn` search of the simulation deriver (App.tsx lines
664-668): the first connection touching the given LED by any pin whose
endpoints include a component of type `esp8266`. -/
def ledToEspConn (components : List Component) (connections : List Connection)
    (ledId : String) : Option Connection :=
  connections.find? (fun c =>
    (c.fromComponentId == ledId || c.toComponentId == ledId) &&
    ((componentById components c.fromComponentId).any
        (fun co => co.type == ComponentType.esp8266) ||
     (componentById components c.toComponentId).any
        (fun co => co.type == ComponentType.esp8266)))

/-- The potentiometer scan of the simulation deriver (App.tsx lines
672-686): walk all connections; every potentiometer-to-ESP link (any
pins, either orientation) sets the flag and overwrites the reading with
`potComp?.config?.value || 512`.  Returns `some reading` when the flag
ends up set, `none` otherwise. -/
def potScan (components : List Component) (connections : List Connection) : Option Int :=
  connections.foldl
    (fun acc c =>
      let fromComp := componentById components c.fromComponentId
      let toComp := componentById components c.toComponentId
      if (fromComp.any (fun co => co.type == ComponentType.potentiometer) &&
          toComp.any (fun co => co.type == ComponentType.esp8266)) ||
         (toComp.any (fun co => co.type == ComponentType.potentiometer) &&
          fromComp.any (fun co => co.type == ComponentType.esp8266)) then
        let potComp := if fromComp.any (fun co => co.type == ComponentType.potentiometer)
                       then fromComp else toComp
        some (jsOrInt (potComp.bind (fun p => p.config.value)) 512)
      else acc)
    none

/-- `updateLedStates` (App.tsx lines 651-703): while the run flag is off
the brightness map is empty; while it is on, every LED connected to the
ESP8266 by any pin gets brightness `potValue / 1023` when some
potentiometer-to-ESP link exists, else brightness `1`.  The JS number
division is modelled as exact rational division (`mkRat potValue 1023`,
which equals `(potValue : Rat) / 1023`).  Modelled as an association
list in component order. -/
def updateLedStates (isRunning : Bool) (components : List Component)
    (connections : List Connection) : List (String × Rat) :=
  if isRunning = false then []
  else
    components.filterMap (fun comp =>
      if comp.type == ComponentType.led then
        match ledToEspConn components connections comp.id with
        | some _ =>
          match potScan components connections with
          | some potValue => some (comp.id, mkRat potValue 1023)
          | none => some (comp.id, 1)
        | none => none
      else none)

/-- The `esp8266Pins.left` layout table (App.tsx lines 56-72):
`(id, label, offset)` triples. -/
def esp8266PinsLeft : List (String × String × Int) :=
  [("A0", "A0", 0), ("RST", "RST", 1), ("EN", "EN", 2), ("3V3_L", "3V3", 3),
   ("GND_L1", "GND", 4), ("CLK", "CLK", 5), ("SD0", "SD0", 6), ("CMD", "CMD", 7),
   ("SD1", "SD1", 8), ("SD2", "SD2", 9), ("SD3", "SD3", 10), ("RX_L", "RX", 11),
   ("TX_L", "TX", 12), ("GND_L2", "GND", 13), ("3V3_L2", "3V3", 14)]

/-- The `esp8266Pins.right` layout table (App.tsx lines 73-89). -/
def esp8266PinsRight : List (String × String × Int) :=
  [("D0", "D0", 0), ("D1", "D1", 1), ("D2", "D2", 2), ("D3", "D3", 3),
   ("D4", "D4", 4), ("D5", "D5", 5), ("D6", "D6", 6), ("D7", "D7", 7),
   ("D8", "D8", 8), ("3V3_R", "3V3", 9), ("GND_R1", "GND", 10), ("RX_R", "RX", 11),
   ("TX_R", "TX", 12), ("GND_R2", "GND", 13), ("VIN", "VIN", 14)]

/-- The pin list built for a freshly created ESP8266 component
(App.tsx lines 247-272): left column at x = 0, right column at
x = 120 (the board width), each at y = offset * 20 + 10. -/
def espPinsList : List Pin :=
  esp8266PinsLeft.map (fun p => ⟨p.1, p.2.1, 0, p.2.2 * 20 + 10, Side.left⟩) ++
  esp8266PinsRight.map (fun p => ⟨p.1, p.2.1, 120, p.2.2 * 20 + 10, Side.right⟩)

/-- `addComponent` (App.tsx lines 235-292): builds the new component with
its kind-specific config and fixed pin layout.  In the source the id is
derived from the creation timestamp; here it is a parameter. -/
def mkComponent (t : ComponentType) (cid : String) : Component :=
  { id := cid
    type := t
    x := 100
    y := 100
    config :=
      match t with
      | ComponentType.led => ⟨some "#ff0000", none⟩
      | ComponentType.resistor => ⟨none, some 220⟩
      | ComponentType.potentiometer => ⟨none, some 512⟩
      | ComponentType.esp8266 => ⟨none, none⟩
    pins :=
      match t with
      | ComponentType.esp8266 => espPinsList
      | ComponentType.led =>
          [⟨"anode", "+", 20, 0, Side.left⟩, ⟨"cathode", "-", 20, 50, Side.left⟩]
      | ComponentType.resistor =>
          [⟨"pin1", "1", 0, 15, Side.left⟩, ⟨"pin2", "2", 80, 15, Side.right⟩]
      | ComponentType.potentiometer =>
          [⟨"vcc", "VCC", 10, 65, Side.left⟩, ⟨"signal", "SIG", 35, 65, Side.left⟩,
           ⟨"gnd", "GND", 60, 65, Side.right⟩] }

/-- The component-creation operation as exposed to the user (App.tsx
lines 878-884): the ESP8266 toolbar button is disabled as soon as a
component of type `esp8266` exists, so a click on it is then a no-op;
every other kind is always appended via `addComponent`. -/
def addComponentUser (components : List Component) (t : ComponentType)
    (cid : String) : List Component :=
  if t = ComponentType.esp8266 ∧ components.any (fun c => c.type == ComponentType.esp8266)
  then components
  else components ++ [mkComponent t cid]

/-- Number of controller components in the store. -/
def espCount (components : List Component) : Nat :=
  components.countP (fun c => c.type == ComponentType.esp8266)

/-- Replay of a sequence of user component-creation clicks starting from
the empty store. -/
def runAdds (ops : List (ComponentType × String)) : List Component :=
  ops.foldl (fun st op => addComponentUser st op.1 op.2) []

/-- `updatePotValue` (App.tsx lines 706-712): map over the component
list, replacing the config of every component with the given id by the
spread `{ ...comp.config, value: newValue }`. -/
def updatePotValue (components : List Component) (componentId : String)
    (newValue : Int) : List Component :=
  components.map (fun comp =>
    if comp.id == componentId then
      { comp with config := { comp.config with value := some newValue } }
    else comp)

/-- The "Limpiar Conexiones" action (App.tsx line 821):
`setConnections([])`, leaving the component list untouched. -/
def clearConnections (st : AppState) : AppState :=
  { st with connections := [] }

/-- The pin-click half of the two-click connection gesture
(`handlePinClick`, App.tsx lines 333-351), acting on the pending
endpoint and the connection list.  With no pending endpoint the click
arms one.  With a pending endpoint, a click on a *different* component
appends one new connection; in either case the pending endpoint is then
cleared (the `setConnectingPin(null)` call sits outside the
same-component guard).  In the source the new connection id is derived
from the timestamp; here it is a parameter. -/
def handlePinClick (connectingPin : Option PinConnection)
    (connections : List Connection) (componentId pinId newConnId : String) :
    Option PinConnection × List Connection :=
  match connectingPin with
  | none => (some ⟨componentId, pinId⟩, connections)
  | some cp =>
      if cp.componentId ≠ componentId then
        (none, connections ++ [⟨newConnId, cp.componentId, cp.pinId, componentId, pinId⟩])
      else
        (none, connections)

/-- A connection between endpoints `(aId, aPin)` and `(bId, bPin)` in one
of the two storable orientations: `o = true` stores it as drawn from `a`
to `b`, `o = false` the reverse.  Connections are logically undirected,
so claims quantify over both orientations through this constructor. -/
def mkConn (cid : String) (o : Bool) (aId aPin bId bPin : String) : Connection :=
  if o then ⟨cid, aId, aPin, bId, bPin⟩ else ⟨cid, bId, bPin, aId, aPin⟩

/-! ## Helper lemmas -/

theorem generateCode_of_find? {components : List Component}
    {connections : List Connection} {esp : Component}
    (hfind : components.find? (fun c => c.type == ComponentType.esp8266) = some esp) :
    generateCode components connections = generateCodeWithEsp components connections esp := by
  unfold generateCode
  rw [hfind]

theorem componentById_any_type_false {components : List Component} {t : ComponentType}
    (h : ∀ c ∈ components, c.type ≠ t) (cid : String) :
    (componentById components cid).any (fun co => co.type == t) = false := by
  cases hq : componentById components cid with
  | none => rfl
  | some x =>
      have hx : x ∈ components := List.mem_of_find?_eq_some hq
      simp [Option.any, h x hx]

theorem ledBindings_nil (components : List Component) (espId : String) :
    ledBindings components [] espId = [] := by
  rw [ledBindings, List.filterMap_eq_nil_iff]
  intro a _
  cases h : a.type == ComponentType.led <;> simp [h, List.find?]

theorem potBindings_nil (components : List Component) (espId : String) :
    potBindings components [] espId = [] := by
  rw [potBindings, List.filterMap_eq_nil_iff]
  intro a _
  cases h : a.type == ComponentType.potentiometer <;> simp [h, List.find?]

theorem updateLedStates_nil (run : Bool) (components : List Component) :
    updateLedStates run components [] = [] := by
  unfold updateLedStates
  cases run with
  | false => simp
  | true =>
      simp only [Bool.true_eq_false, if_false, reduceIte]
      rw [List.filterMap_eq_nil_iff]
      intro a _
      cases h : a.type == ComponentType.led <;> simp [h, ledToEspConn, List.find?]

theorem find?_esp_pair {esp led : Component} (order : Bool)
    (hesp : esp.type = ComponentType.esp8266)
    (hled : led.type = ComponentType.led) :
    (if order then [esp, led] else [led, esp]).find?
      (fun c => c.type == ComponentType.esp8266) = some esp := by
  cases order <;> simp [List.find?, hesp, hled] <;> rfl

theorem potBindings_eq_nil_of_no_pot {components : List Component}
    (connections : List Connection) (espId : String)
    (h : ∀ c ∈ components, c.type ≠ ComponentType.potentiometer) :
    potBindings components connections espId = [] := by
  rw [potBindings, List.filterMap_eq_nil_iff]
  intro a ha
  simp [h a ha]

theorem ledBindings_eq_nil_of_no_led {components : List Component}
    (connections : List Connection) (espId : String)
    (h : ∀ c ∈ components, c.type ≠ ComponentType.led) :
    ledBindings components connections espId = [] := by
  rw [ledBindings, List.filterMap_eq_nil_iff]
  intro a ha
  simp [h a ha]

theorem ledBindings_pair_anode {esp led : Component} (order o : Bool) (cid p : String)
    (hesp : esp.type = ComponentType.esp8266)
    (hled : led.type = ComponentType.led)
    (hne : esp.id ≠ led.id) :
    ledBindings (if order then [esp, led] else [led, esp])
      [mkConn cid o led.id "anode" esp.id p] esp.id = [⟨led.id, splitHead p⟩] := by
  have e1 : (esp.id == led.id) = false := by simp [hne]
  have e2 : (led.id == esp.id) = false := by simp [Ne.symm hne]
  cases order <;> cases o <;>
    simp [ledBindings, mkConn, espPinOf, List.filterMap_cons, List.find?,
      hesp, hled, e1, e2, Ne.symm hne]

theorem ledBindings_pair_cathode {esp led : Component} (order o : Bool) (cid p : String)
    (hesp : esp.type = ComponentType.esp8266)
    (hled : led.type = ComponentType.led)
    (hne : esp.id ≠ led.id) :
    ledBindings (if order then [esp, led] else [led, esp])
      [mkConn cid o led.id "cathode" esp.id p] esp.id = [] := by
  have e1 : (esp.id == led.id) = false := by simp [hne]
  cases order <;> cases o <;>
    simp [ledBindings, mkConn, List.filterMap_cons, List.find?, hesp, hled, e1]

theorem potBindings_single_signal {esp pot : Component} (o : Bool) (cid q : String)
    (hesp : esp.type = ComponentType.esp8266)
    (hpot : pot.type = ComponentType.potentiometer)
    (hne : esp.id ≠ pot.id) :
    potBindings [esp, pot] [mkConn cid o pot.id "signal" esp.id q] esp.id =
      [⟨pot.id, splitHead q⟩] := by
  have e1 : (esp.id == pot.id) = false := by simp [hne]
  have e2 : (pot.id == esp.id) = false := by simp [Ne.symm hne]
  cases o <;>
    simp [potBindings, mkConn, espPinOf, List.filterMap_cons, List.find?,
      hesp, hpot, e1, e2, Ne.symm hne]

/-! ## Claims -/

/-- C4: for every graph with no controller component (any mix of LEDs,
resistors and potentiometers with any connections), the generated code
is exactly the fixed single-line placeholder comment, and the simulation
brightness map is empty for either value of the run flag, in particular
while it is active. -/
theorem C4_no_controller_placeholder (components : List Component)
    (connections : List Connection) (run : Bool)
    (h : ∀ c ∈ components, c.type ≠ ComponentType.esp8266) :
    generateCode components connections = "// Agrega un ESP8266 para comenzar" ∧
    updateLedStates run components connections = [] := by
  have hfind : components.find? (fun c => c.type == ComponentType.esp8266) = none := by
    rw [List.find?_eq_none]
    intro x hx
    simpa using h x hx
  constructor
  · unfold generateCode
    rw [hfind]
  · unfold updateLedStates
    cases run with
    | false => simp
    | true =>
        simp only [Bool.true_eq_false, if_false, reduceIte]
        rw [List.filterMap_eq_nil_iff]
        intro a _
        cases ha : a.type == ComponentType.led with
        | false => simp [ha]
        | true =>
            have hconn : ledToEspConn components connections a.id = none := by
              rw [ledToEspConn, List.find?_eq_none]
              intro c _
              rw [componentById_any_type_false h, componentById_any_type_false h]
              simp
            simp [ha, hconn]

/-- Witness component: an LED as created by `addComponent`. -/
def wLed : Component := mkComponent ComponentType.led "led_1"

/-- Witness component: a resistor as created by `addComponent`. -/
def wRes : Component := mkComponent ComponentType.resistor "res_1"

/-- Witness for C4: a graph holding one LED and one resistor wired to
each other, run flag active. -/
theorem C4_no_controller_placeholder_witness :
    generateCode [wLed, wRes] [⟨"conn_1", "led_1", "anode", "res_1", "pin1"⟩] =
      "// Agrega un ESP8266 para comenzar" ∧
    updateLedStates true [wLed, wRes] [⟨"conn_1", "led_1", "anode", "res_1", "pin1"⟩] = [] :=
  C4_no_controller_placeholder _ _ true (by decide)

/-- C7: on every graph whose store holds a controller (in particular any
graph with bindings), clearing the connection list resets the generated
code to the "no LEDs bound" minimal template and empties the brightness
map for either value of the run flag, and clearing twice produces
exactly the same store state as clearing once. -/
theorem C7_clear_connections_idempotent (st : AppState) (esp : Component)
    (hfind : st.components.find? (fun c => c.type == ComponentType.esp8266) = some esp) :
    generateCode (clearConnections st).components (clearConnections st).connections =
      String.intercalate "\n"
        ["// Código generado automáticamente para NodeMCU ESP8266", "",
         "void setup() \x7b", "  Serial.begin(115200);",
         "  Serial.println(\"ESP8266 iniciado\");", "\x7d", "",
         "void loop() \x7b", "  // Código principal aquí", "  delay(100);", "\x7d"] ∧
    (∀ run : Bool,
      updateLedStates run (clearConnections st).components (clearConnections st).connections = []) ∧
    clearConnections (clearConnections st) = clearConnections st := by
  refine ⟨?_, fun run => updateLedStates_nil run _, rfl⟩
  show generateCode st.components [] = _
  rw [generateCode_of_find? hfind, generateCodeWithEsp, ledBindings_nil, potBindings_nil]
  rfl

/-- Witness esp component as created by `addComponent`. -/
def wEsp : Component := mkComponent ComponentType.esp8266 "esp8266_1"

/-- Witness for C7: a store holding a controller and a bound LED. -/
theorem C7_clear_connections_idempotent_witness :
    generateCode
        (clearConnections ⟨[wEsp, wLed], [⟨"conn_1", "led_1", "anode", "esp8266_1", "D1"⟩]⟩).components
        (clearConnections ⟨[wEsp, wLed], [⟨"conn_1", "led_1", "anode", "esp8266_1", "D1"⟩]⟩).connections =
      String.intercalate "\n"
        ["// Código generado automáticamente para NodeMCU ESP8266", "",
         "void setup() \x7b", "  Serial.begin(115200);",
         "  Serial.println(\"ESP8266 iniciado\");", "\x7d", "",
         "void loop() \x7b", "  // Código principal aquí", "  delay(100);", "\x7d"] ∧
    (∀ run : Bool,
      updateLedStates run
        (clearConnections ⟨[wEsp, wLed], [⟨"conn_1", "led_1", "anode", "esp8266_1", "D1"⟩]⟩).components
        (clearConnections ⟨[wEsp, wLed], [⟨"conn_1", "led_1", "anode", "esp8266_1", "D1"⟩]⟩).connections = []) ∧
    clearConnections (clearConnections ⟨[wEsp, wLed], [⟨"conn_1", "led_1", "anode", "esp8266_1", "D1"⟩]⟩) =
      clearConnections ⟨[wEsp, wLed], [⟨"conn_1", "led_1", "anode", "esp8266_1", "D1"⟩]⟩ :=
  C7_clear_connections_idempotent _ wEsp (by decide)

/-- C8 counterexample: with pending endpoint `(led_1, anode)` armed, a
second click on another pin of the same component `led_1` creates no
connection but *clears* the pending endpoint (the source resets
`connectingPin` outside the different-component guard), contradicting
the claim that the pending endpoint is left armed. -/
theorem C8_counterexample :
    handlePinClick (some ⟨"led_1", "anode"⟩) [] "led_1" "cathode" "conn_9" = (none, []) ∧
    (handlePinClick (some ⟨"led_1", "anode"⟩) [] "led_1" "cathode" "conn_9").1 ≠
      some ⟨"led_1", "anode"⟩ := by
  exact ⟨rfl, by decide⟩

/-- C8 (amended): with a pending endpoint armed, a second pin click on
the same component creates no Connection and clears the pending
endpoint, while a second click on a pin of a different component creates
exactly one Connection between the two endpoints and clears the pending
endpoint; a first click (no pending endpoint) arms one and creates
nothing. -/
theorem C8_pin_click_protocol (cp : PinConnection) (connections : List Connection)
    (componentId pinId newConnId : String) :
    (cp.componentId = componentId →
      handlePinClick (some cp) connections componentId pinId newConnId = (none, connections)) ∧
    (cp.componentId ≠ componentId →
      handlePinClick (some cp) connections componentId pinId newConnId =
        (none, connections ++ [⟨newConnId, cp.componentId, cp.pinId, componentId, pinId⟩])) ∧
    handlePinClick none connections componentId pinId newConnId =
      (some ⟨componentId, pinId⟩, connections) := by
  refine ⟨fun h => ?_, fun h => ?_, rfl⟩
  · simp [handlePinClick, h]
  · simp [handlePinClick, h]

/-- Witness for C8 (amended): same-component click drops the pending
endpoint without a connection; different-component click appends exactly
the completed connection. -/
theorem C8_pin_click_protocol_witness :
    handlePinClick (some ⟨"led_1", "anode"⟩) [] "led_1" "cathode" "conn_9" = (none, []) ∧
    handlePinClick (some ⟨"led_1", "anode"⟩) [] "esp8266_1" "D1" "conn_9" =
      (none, [⟨"conn_9", "led_1", "anode", "esp8266_1", "D1"⟩]) :=
  ⟨(C8_pin_click_protocol ⟨"led_1", "anode"⟩ [] "led_1" "cathode" "conn_9").1 rfl,
   (C8_pin_click_protocol ⟨"led_1", "anode"⟩ [] "esp8266_1" "D1" "conn_9").2.1 (by decide)⟩

theorem espCount_addComponentUser_le (components : List Component)
    (t : ComponentType) (cid : String) (h : espCount components ≤ 1) :
    espCount (addComponentUser components t cid) ≤ 1 := by
  unfold addComponentUser
  by_cases hc : t = ComponentType.esp8266 ∧
      components.any (fun c => c.type == ComponentType.esp8266)
  · rw [if_pos hc]; exact h
  · rw [if_neg hc]
    unfold espCount at *
    rw [List.countP_append]
    by_cases ht : t = ComponentType.esp8266
    · have hany : components.any (fun c => c.type == ComponentType.esp8266) = false := by
        cases hb : components.any (fun c => c.type == ComponentType.esp8266) with
        | false => rfl
        | true => exact absurd ⟨ht, hb⟩ hc
      have h0 : components.countP (fun c => c.type == ComponentType.esp8266) = 0 := by
        rw [List.countP_eq_zero]
        intro a ha
        have := List.any_eq_false.mp hany a ha
        simpa using this
      rw [h0]
      simpa using List.countP_le_length (fun c => c.type == ComponentType.esp8266)
        (l := [mkComponent t cid])
    · have h1 : ([mkComponent t cid].countP (fun c => c.type == ComponentType.esp8266)) = 0 := by
        rw [List.countP_eq_zero]
        intro a ha
        rw [List.mem_singleton] at ha
        subst ha
        simpa using ht
      rw [h1]
      simpa using h

/-- C9: starting from the empty store, no sequence of user-exposed
component-creation operations can produce a store holding two controller
components: the replay of any operation sequence contains at most one
component of type `esp8266`. -/
theorem C9_at_most_one_controller (ops : List (ComponentType × String)) :
    espCount (runAdds ops) ≤ 1 := by
  suffices h : ∀ (l : List (ComponentType × String)) (st : List Component),
      espCount st ≤ 1 →
      espCount (l.foldl (fun s op => addComponentUser s op.1 op.2) st) ≤ 1 by
    exact h ops [] (by decide)
  intro l
  induction l with
  | nil => intro st hst; exact hst
  | cons op rest ih =>
      intro st hst
      exact ih _ (espCount_addComponentUser_le _ _ _ hst)

/-- The user-level potentiometer-slider action: `updatePotValue` only
calls `setComponents`, so at store level only the component list
changes. -/
def updatePotValueState (st : AppState) (componentId : String) (newValue : Int) : AppState :=
  { st with components := updatePotValue st.components componentId newValue }

/-- C10: `updatePotValue` is a frame-respecting update: the connection
list is untouched; position-wise, entry `i` of the new component list is
entry `i` of the old one with only `config.value` replaced when its id
matches, and unchanged otherwise; every field other than `config.value`
(id, type, position, pins, `config.color`) is preserved for every
component; and when no component carries the id the list is unchanged. -/
theorem C10_updatePotValue_frame (components : List Component)
    (connections : List Connection) (componentId : String) (newValue : Int) :
    (updatePotValueState ⟨components, connections⟩ componentId newValue).connections =
      connections ∧
    (∀ i : Nat, (updatePotValue components componentId newValue)[i]? =
      (components[i]?).map (fun c =>
        if c.id = componentId then
          { c with config := { c.config with value := some newValue } }
        else c)) ∧
    (updatePotValue components componentId newValue).map
        (fun c => (c.id, c.type, c.x, c.y, c.pins, c.config.color)) =
      components.map (fun c => (c.id, c.type, c.x, c.y, c.pins, c.config.color)) ∧
    ((∀ c ∈ components, c.id ≠ componentId) →
      updatePotValue components componentId newValue = components) := by
  refine ⟨rfl, ?_, ?_, ?_⟩
  · intro i
    rw [updatePotValue, List.getElem?_map]
    cases components[i]? with
    | none => rfl
    | some c =>
        simp only [Option.map_some]
        by_cases h : c.id = componentId
        · simp [h]
        · simp [h]
  · rw [updatePotValue, List.map_map]
    apply List.map_congr_left
    intro c _
    by_cases h : c.id = componentId
    · simp [h]
    · simp [h]
  · intro h
    rw [updatePotValue]
    conv_rhs => rw [← List.map_id components]
    apply List.map_congr_left
    intro c hc
    simp [h c hc]

/-- Witness potentiometer component as created by `addComponent`. -/
def wPot : Component := mkComponent ComponentType.potentiometer "pot_1"

/-- Witness for C10: updating `pot_1` to 77 in a two-component store
rewrites only that entry's config value; updating an id that is absent
leaves the list unchanged. -/
theorem C10_updatePotValue_frame_witness :
    (updatePotValue [wPot, wLed] "pot_1" 77)[0]? =
      some { wPot with config := { wPot.config with value := some 77 } } ∧
    updatePotValue [wPot, wLed] "missing" 77 = [wPot, wLed] := by
  constructor
  · have h := (C10_updatePotValue_frame [wPot, wLed] [] "pot_1" 77).2.1 0
    rw [h]
    decide
  · exact (C10_updatePotValue_frame [wPot, wLed] [] "missing" 77).2.2.2 (by decide)

/-- C1: for every graph holding a controller and one LED (in either
creation order) whose anode pin is wired, in either endpoint
orientation, to controller pin `D1`, the generated code is the blink
template with exactly one LED pin constant `#define LED_PIN_1 D1` and a
loop body that is one digitalWrite-HIGH / delay / digitalWrite-LOW /
delay sequence; when the LED's only connection to the controller leaves
its cathode pin instead (toward any controller pin), no LED binding is
produced and the idle template is emitted. -/
theorem C1_single_led_blink (esp led : Component) (order o : Bool) (cid p : String)
    (hesp : esp.type = ComponentType.esp8266)
    (hled : led.type = ComponentType.led)
    (hne : esp.id ≠ led.id) :
    generateCode (if order then [esp, led] else [led, esp])
        [mkConn cid o led.id "anode" esp.id "D1"] =
      String.intercalate "\n"
        ["// Código generado automáticamente para NodeMCU ESP8266", "",
         "#define LED_PIN_1 D1", "",
         "void setup() \x7b", "  Serial.begin(115200);",
         "  pinMode(LED_PIN_1, OUTPUT);",
         "  Serial.println(\"ESP8266 iniciado\");", "\x7d", "",
         "void loop() \x7b",
         "  // Parpadeo simple del LED",
         "  digitalWrite(LED_PIN_1, HIGH);",
         "  delay(500);",
         "  digitalWrite(LED_PIN_1, LOW);",
         "  delay(500);",
         "\x7d"] ∧
    generateCode (if order then [esp, led] else [led, esp])
        [mkConn cid o led.id "cathode" esp.id p] =
      String.intercalate "\n"
        ["// Código generado automáticamente para NodeMCU ESP8266", "",
         "void setup() \x7b", "  Serial.begin(115200);",
         "  Serial.println(\"ESP8266 iniciado\");", "\x7d", "",
         "void loop() \x7b", "  // Código principal aquí", "  delay(100);", "\x7d"] := by
  have hnopot : ∀ c ∈ (if order then [esp, led] else [led, esp]),
      c.type ≠ ComponentType.potentiometer := by
    intro c hc
    cases order <;> simp only [if_true, if_false, Bool.false_eq_true,
      List.mem_cons, List.not_mem_nil, or_false] at hc <;>
      rcases hc with rfl | rfl <;> simp [hesp, hled]
  constructor
  · rw [generateCode_of_find? (find?_esp_pair order hesp hled), generateCodeWithEsp,
      ledBindings_pair_anode order o cid "D1" hesp hled hne,
      potBindings_eq_nil_of_no_pot _ _ hnopot]
    rfl
  · rw [generateCode_of_find? (find?_esp_pair order hesp hled), generateCodeWithEsp,
      ledBindings_pair_cathode order o cid p hesp hled hne,
      potBindings_eq_nil_of_no_pot _ _ hnopot]
    rfl

/-- Witness for C1: the concrete two-component graph `esp8266_1`,
`led_1` with the anode wired to D1 (blink code), and with the cathode
wired to GND_L1 (idle code). -/
theorem C1_single_led_blink_witness :
    generateCode [wEsp, wLed] [⟨"conn_1", "led_1", "anode", "esp8266_1", "D1"⟩] =
      String.intercalate "\n"
        ["// Código generado automáticamente para NodeMCU ESP8266", "",
         "#define LED_PIN_1 D1", "",
         "void setup() \x7b", "  Serial.begin(115200);",
         "  pinMode(LED_PIN_1, OUTPUT);",
         "  Serial.println(\"ESP8266 iniciado\");", "\x7d", "",
         "void loop() \x7b",
         "  // Parpadeo simple del LED",
         "  digitalWrite(LED_PIN_1, HIGH);",
         "  delay(500);",
         "  digitalWrite(LED_PIN_1, LOW);",
         "  delay(500);",
         "\x7d"] ∧
    generateCode [wEsp, wLed] [⟨"conn_1", "led_1", "cathode", "esp8266_1", "GND_L1"⟩] =
      String.intercalate "\n"
        ["// Código generado automáticamente para NodeMCU ESP8266", "",
         "void setup() \x7b", "  Serial.begin(115200);",
         "  Serial.println(\"ESP8266 iniciado\");", "\x7d", "",
         "void loop() \x7b", "  // Código principal aquí", "  delay(100);", "\x7d"] :=
  C1_single_led_blink wEsp wLed true true "conn_1" "GND_L1" rfl rfl (by decide)

/-- A potentiometer component whose reading has been set to 0. -/
def wPot0 : Component := { wPot with config := { wPot.config with value := some 0 } }

/-- C2 counterexample: controller, connected LED, and a potentiometer at
reading 0 linked to the controller.  The claim demands brightness
`0 / 1023 = 0`, but the source computes `potComp?.config?.value || 512`,
and `0` is falsy in JS, so the LED's brightness entry is `512 / 1023`. -/
theorem C2_counterexample :
    wPot0.config.value = some 0 ∧
    updateLedStates true [wEsp, wLed, wPot0]
      [⟨"conn_1", "led_1", "anode", "esp8266_1", "D2"⟩,
       ⟨"conn_2", "pot_1", "signal", "esp8266_1", "A0"⟩] =
      [("led_1", mkRat 512 1023)] ∧
    mkRat 512 1023 ≠ (0 : Rat) / 1023 := by
  refine ⟨rfl, by decide, ?_⟩
  rw [zero_div]
  decide

/-- C2 (amended): in a running simulation with a controller, an LED
connected to it by any pin, and a potentiometer linked to it by any pin
(either endpoint orientation, either connection order), the LED's
brightness entry equals `value / 1023` for every nonzero config value;
for config value 0 (falsy in JS) the source falls back to the default
reading 512, so the entry is `512 / 1023` instead of 0. -/
theorem C2_pot_gated_brightness (esp led pot : Component) (o1 o2 ro : Bool)
    (cid1 cid2 lp ep pp ep2 : String) (v : Int)
    (hesp : esp.type = ComponentType.esp8266)
    (hled : led.type = ComponentType.led)
    (hpot : pot.type = ComponentType.potentiometer)
    (h1 : esp.id ≠ led.id) (h2 : esp.id ≠ pot.id) (h3 : led.id ≠ pot.id)
    (hv : pot.config.value = some v) :
    (v ≠ 0 →
      updateLedStates true [esp, led, pot]
        (if ro then [mkConn cid1 o1 led.id lp esp.id ep, mkConn cid2 o2 pot.id pp esp.id ep2]
         else [mkConn cid2 o2 pot.id pp esp.id ep2, mkConn cid1 o1 led.id lp esp.id ep]) =
        [(led.id, (v : Rat) / 1023)]) ∧
    (v = 0 →
      updateLedStates true [esp, led, pot]
        (if ro then [mkConn cid1 o1 led.id lp esp.id ep, mkConn cid2 o2 pot.id pp esp.id ep2]
         else [mkConn cid2 o2 pot.id pp esp.id ep2, mkConn cid1 o1 led.id lp esp.id ep]) =
        [(led.id, mkRat 512 1023)]) := by
  have e1 : (esp.id == led.id) = false := by simp [h1]
  have e2 : (led.id == esp.id) = false := by simp [Ne.symm h1]
  have e3 : (esp.id == pot.id) = false := by simp [h2]
  have e4 : (pot.id == esp.id) = false := by simp [Ne.symm h2]
  have e5 : (led.id == pot.id) = false := by simp [h3]
  have e6 : (pot.id == led.id) = false := by simp [Ne.symm h3]
  constructor
  · intro hv0
    have hbr : mkRat v 1023 = (v : Rat) / 1023 := by
      rw [Rat.mkRat_eq_div]; norm_num
    cases ro <;> cases o1 <;> cases o2 <;>
      simp [updateLedStates, ledToEspConn, potScan, componentById, jsOrInt, mkConn,
        List.filterMap_cons, List.find?, List.foldl, Option.any, hesp, hled, hpot,
        e1, e2, e3, e4, e5, e6, hv, hv0, hbr]
  · intro hv0
    subst hv0
    cases ro <;> cases o1 <;> cases o2 <;>
      simp [updateLedStates, ledToEspConn, potScan, componentById, jsOrInt, mkConn,
        List.filterMap_cons, List.find?, List.foldl, Option.any, hesp, hled, hpot,
        e1, e2, e3, e4, e5, e6, hv]

/-- Witness for C2 (amended): reading 512 gives brightness `512 / 1023`;
reading 0 gives brightness `512 / 1023` as well (the falsy fallback). -/
theorem C2_pot_gated_brightness_witness :
    updateLedStates true [wEsp, wLed, wPot]
      [⟨"conn_1", "led_1", "anode", "esp8266_1", "D2"⟩,
       ⟨"conn_2", "pot_1", "signal", "esp8266_1", "A0"⟩] =
      [("led_1", (512 : Rat) / 1023)] ∧
    updateLedStates true [wEsp, wLed, wPot0]
      [⟨"conn_1", "led_1", "anode", "esp8266_1", "D2"⟩,
       ⟨"conn_2", "pot_1", "signal", "esp8266_1", "A0"⟩] =
      [("led_1", mkRat 512 1023)] :=
  ⟨(C2_pot_gated_brightness wEsp wLed wPot true true true "conn_1" "conn_2"
      "anode" "D2" "signal" "A0" 512 rfl rfl rfl (by decide) (by decide) (by decide)
      rfl).1 (by decide),
   (C2_pot_gated_brightness wEsp wLed wPot0 true true true "conn_1" "conn_2"
      "anode" "D2" "signal" "A0" 0 rfl rfl rfl (by decide) (by decide) (by decide)
      rfl).2 rfl⟩

/-- C3 counterexample: a controller with a potentiometer bound to `A0`
and no LED bound.  The loop body is the idle delay, but the generated
code is not the minimal skeleton: it additionally carries the
`#define POT_PIN_1 A0` line, so "the generated code is the minimal
skeleton regardless of whether a potentiometer is bound" fails. -/
theorem C3_counterexample :
    generateCode [wEsp, wPot] [⟨"conn_1", "pot_1", "signal", "esp8266_1", "A0"⟩] =
      String.intercalate "\n"
        ["// Código generado automáticamente para NodeMCU ESP8266", "",
         "#define POT_PIN_1 A0", "",
         "void setup() \x7b", "  Serial.begin(115200);",
         "  Serial.println(\"ESP8266 iniciado\");", "\x7d", "",
         "void loop() \x7b", "  // Código principal aquí", "  delay(100);", "\x7d"] ∧
    generateCode [wEsp, wPot] [⟨"conn_1", "pot_1", "signal", "esp8266_1", "A0"⟩] ≠
      String.intercalate "\n"
        ["// Código generado automáticamente para NodeMCU ESP8266", "",
         "void setup() \x7b", "  Serial.begin(115200);",
         "  Serial.println(\"ESP8266 iniciado\");", "\x7d", "",
         "void loop() \x7b", "  // Código principal aquí", "  delay(100);", "\x7d"] :=
  ⟨rfl, by decide⟩

/-- C3 (amended): for every graph with a controller in which no LED is
bound, the main-loop body contains only the fixed idle delay statement
regardless of potentiometer bindings, and the generated code equals the
fixed initialization block plus that idle loop with at most the
potentiometer pin defines inserted; when additionally no potentiometer
is bound, the code is exactly the minimal skeleton. -/
theorem C3_no_led_idle_skeleton (components : List Component)
    (connections : List Connection) (esp : Component)
    (hfind : components.find? (fun c => c.type == ComponentType.esp8266) = some esp)
    (hleds : ledBindings components connections esp.id = []) :
    generateCode components connections =
      String.intercalate "\n"
        (["// Código generado automáticamente para NodeMCU ESP8266", ""]
         ++ (if 0 < (potDefineLines 0 (potBindings components connections esp.id)).length then
               potDefineLines 0 (potBindings components connections esp.id) ++ [""]
             else [])
         ++ ["void setup() \x7b", "  Serial.begin(115200);",
             "  Serial.println(\"ESP8266 iniciado\");", "\x7d", "",
             "void loop() \x7b", "  // Código principal aquí", "  delay(100);", "\x7d"]) ∧
    (potBindings components connections esp.id = [] →
      generateCode components connections =
        String.intercalate "\n"
          ["// Código generado automáticamente para NodeMCU ESP8266", "",
           "void setup() \x7b", "  Serial.begin(115200);",
           "  Serial.println(\"ESP8266 iniciado\");", "\x7d", "",
           "void loop() \x7b", "  // Código principal aquí", "  delay(100);", "\x7d"]) := by
  constructor
  · rw [generateCode_of_find? hfind, generateCodeWithEsp, hleds]
    simp [ledDefineLines, numberedLines]
  · intro hpots
    rw [generateCode_of_find? hfind, generateCodeWithEsp, hleds, hpots]
    rfl

/-- Witness for C3 (amended): with a bound potentiometer the code is the
skeleton plus the POT_PIN define; with no potentiometer it is exactly
the skeleton. -/
theorem C3_no_led_idle_skeleton_witness :
    generateCode [wEsp, wPot] [⟨"conn_1", "pot_1", "signal", "esp8266_1", "A0"⟩] =
      String.intercalate "\n"
        ["// Código generado automáticamente para NodeMCU ESP8266", "",
         "#define POT_PIN_1 A0", "",
         "void setup() \x7b", "  Serial.begin(115200);",
         "  Serial.println(\"ESP8266 iniciado\");", "\x7d", "",
         "void loop() \x7b", "  // Código principal aquí", "  delay(100);", "\x7d"] ∧
    generateCode [wEsp] [] =
      String.intercalate "\n"
        ["// Código generado automáticamente para NodeMCU ESP8266", "",
         "void setup() \x7b", "  Serial.begin(115200);",
         "  Serial.println(\"ESP8266 iniciado\");", "\x7d", "",
         "void loop() \x7b", "  // Código principal aquí", "  delay(100);", "\x7d"] :=
  ⟨(C3_no_led_idle_skeleton [wEsp, wPot]
      [⟨"conn_1", "pot_1", "signal", "esp8266_1", "A0"⟩] wEsp rfl (by decide)).1,
   (C3_no_led_idle_skeleton [wEsp] [] wEsp rfl (by decide)).2 (by decide)⟩

/-- C5: with controller, LED A and LED B held in the store in creation
order A before B, both anodes bound to the controller (pins `pa`, `pb`),
the generated code assigns `LED_PIN_1` to A's controller pin and
`LED_PIN_2` to B's controller pin, for both orderings of the two
connections in the connection list and all four endpoint orientations. -/
theorem C5_binding_order_stability (esp a b : Component) (oa ob ord : Bool)
    (ca cb pa pb : String)
    (hesp : esp.type = ComponentType.esp8266)
    (ha : a.type = ComponentType.led) (hb : b.type = ComponentType.led)
    (hea : esp.id ≠ a.id) (heb : esp.id ≠ b.id) (hab : a.id ≠ b.id) :
    ledBindings [esp, a, b]
        (if ord then [mkConn ca oa a.id "anode" esp.id pa, mkConn cb ob b.id "anode" esp.id pb]
         else [mkConn cb ob b.id "anode" esp.id pb, mkConn ca oa a.id "anode" esp.id pa])
        esp.id = [⟨a.id, splitHead pa⟩, ⟨b.id, splitHead pb⟩] ∧
    generateCode [esp, a, b]
        (if ord then [mkConn ca oa a.id "anode" esp.id pa, mkConn cb ob b.id "anode" esp.id pb]
         else [mkConn cb ob b.id "anode" esp.id pb, mkConn ca oa a.id "anode" esp.id pa]) =
      String.intercalate "\n"
        ["// Código generado automáticamente para NodeMCU ESP8266", "",
         "#define LED_PIN_1 " ++ splitHead pa, "#define LED_PIN_2 " ++ splitHead pb, "",
         "void setup() \x7b", "  Serial.begin(115200);",
         "  pinMode(LED_PIN_1, OUTPUT);", "  pinMode(LED_PIN_2, OUTPUT);",
         "  Serial.println(\"ESP8266 iniciado\");", "\x7d", "",
         "void loop() \x7b", "  // Parpadeo simple del LED",
         "  digitalWrite(LED_PIN_1, HIGH);", "  digitalWrite(LED_PIN_2, HIGH);",
         "  delay(500);",
         "  digitalWrite(LED_PIN_1, LOW);", "  digitalWrite(LED_PIN_2, LOW);",
         "  delay(500);", "\x7d"] := by
  have hf : ([esp, a, b]).find? (fun c => c.type == ComponentType.esp8266) = some esp := by
    simp [List.find?, hesp]
  have e1 : (esp.id == a.id) = false := by simp [hea]
  have e2 : (a.id == esp.id) = false := by simp [Ne.symm hea]
  have e3 : (esp.id == b.id) = false := by simp [heb]
  have e4 : (b.id == esp.id) = false := by simp [Ne.symm heb]
  have e5 : (a.id == b.id) = false := by simp [hab]
  have e6 : (b.id == a.id) = false := by simp [Ne.symm hab]
  have hleds : ledBindings [esp, a, b]
      (if ord then [mkConn ca oa a.id "anode" esp.id pa, mkConn cb ob b.id "anode" esp.id pb]
       else [mkConn cb ob b.id "anode" esp.id pb, mkConn ca oa a.id "anode" esp.id pa])
      esp.id = [⟨a.id, splitHead pa⟩, ⟨b.id, splitHead pb⟩] := by
    cases ord <;> cases oa <;> cases ob <;>
      simp [ledBindings, mkConn, espPinOf, List.filterMap_cons, List.find?,
        hesp, ha, hb, e1, e2, e3, e4, e5, e6, Ne.symm hea, Ne.symm heb]
  have hpots : potBindings [esp, a, b]
      (if ord then [mkConn ca oa a.id "anode" esp.id pa, mkConn cb ob b.id "anode" esp.id pb]
       else [mkConn cb ob b.id "anode" esp.id pb, mkConn ca oa a.id "anode" esp.id pa])
      esp.id = [] := by
    refine potBindings_eq_nil_of_no_pot _ _ ?_
    intro c hc
    simp only [List.mem_cons, List.not_mem_nil, or_false] at hc
    rcases hc with rfl | rfl | rfl <;> simp [hesp, ha, hb]
  refine ⟨hleds, ?_⟩
  rw [generateCode_of_find? hf, generateCodeWithEsp, hleds, hpots]
  rfl

/-- Witness component: a second LED as created by `addComponent`. -/
def wLed2 : Component := mkComponent ComponentType.led "led_2"

/-- Witness for C5: LEDs `led_1` (created first) and `led_2`, with the
connection drawn for `led_2` first; `LED_PIN_1` still gets `led_1`'s pin
D5 and `LED_PIN_2` gets `led_2`'s pin D6. -/
theorem C5_binding_order_stability_witness :
    ledBindings [wEsp, wLed, wLed2]
        [⟨"conn_2", "led_2", "anode", "esp8266_1", "D6"⟩,
         ⟨"conn_1", "led_1", "anode", "esp8266_1", "D5"⟩]
        "esp8266_1" = [⟨"led_1", "D5"⟩, ⟨"led_2", "D6"⟩] ∧
    generateCode [wEsp, wLed, wLed2]
        [⟨"conn_2", "led_2", "anode", "esp8266_1", "D6"⟩,
         ⟨"conn_1", "led_1", "anode", "esp8266_1", "D5"⟩] =
      String.intercalate "\n"
        ["// Código generado automáticamente para NodeMCU ESP8266", "",
         "#define LED_PIN_1 D5", "#define LED_PIN_2 D6", "",
         "void setup() \x7b", "  Serial.begin(115200);",
         "  pinMode(LED_PIN_1, OUTPUT);", "  pinMode(LED_PIN_2, OUTPUT);",
         "  Serial.println(\"ESP8266 iniciado\");", "\x7d", "",
         "void loop() \x7b", "  // Parpadeo simple del LED",
         "  digitalWrite(LED_PIN_1, HIGH);", "  digitalWrite(LED_PIN_2, HIGH);",
         "  delay(500);",
         "  digitalWrite(LED_PIN_1, LOW);", "  digitalWrite(LED_PIN_2, LOW);",
         "  delay(500);", "\x7d"] :=
  C5_binding_order_stability wEsp wLed wLed2 false false false "conn_1" "conn_2" "D5" "D6"
    rfl rfl rfl (by decide) (by decide) (by decide)

/-- C6: the controller pin name emitted for a bound LED or potentiometer
is the normalized logical name — the physical pin id truncated at the
first underscore; in particular each of the four physical GND pin ids
(`GND_L1`, `GND_L2`, `GND_R1`, `GND_R2`, all genuine board pins labelled
`GND`) produces the same emitted declaration `#define LED_PIN_1 GND`. -/
theorem C6_pin_name_normalization (esp led pot : Component) (o o2 : Bool)
    (cid cid2 p q : String)
    (hesp : esp.type = ComponentType.esp8266)
    (hled : led.type = ComponentType.led)
    (hpot : pot.type = ComponentType.potentiometer)
    (hne : esp.id ≠ led.id) (hnep : esp.id ≠ pot.id) :
    ledDefineLines 0 (ledBindings [esp, led]
        [mkConn cid o led.id "anode" esp.id p] esp.id) =
      ["#define LED_PIN_1 " ++ splitHead p] ∧
    potDefineLines 0 (potBindings [esp, pot]
        [mkConn cid2 o2 pot.id "signal" esp.id q] esp.id) =
      ["#define POT_PIN_1 " ++ splitHead q] ∧
    (∀ r ∈ ["GND_L1", "GND_L2", "GND_R1", "GND_R2"],
      ledDefineLines 0 (ledBindings [esp, led]
          [mkConn cid o led.id "anode" esp.id r] esp.id) =
        ["#define LED_PIN_1 GND"] ∧
      splitHead r = "GND" ∧
      ∃ pin ∈ espPinsList, pin.id = r ∧ pin.label = "GND") := by
  have hled1 : ledBindings [esp, led] [mkConn cid o led.id "anode" esp.id p] esp.id =
      [⟨led.id, splitHead p⟩] := by
    simpa using ledBindings_pair_anode true o cid p hesp hled hne
  have hpot1 : potBindings [esp, pot] [mkConn cid2 o2 pot.id "signal" esp.id q] esp.id =
      [⟨pot.id, splitHead q⟩] := potBindings_single_signal o2 cid2 q hesp hpot hnep
  refine ⟨by rw [hled1]; rfl, by rw [hpot1]; rfl, ?_⟩
  intro r hr
  have hledr : ledBindings [esp, led] [mkConn cid o led.id "anode" esp.id r] esp.id =
      [⟨led.id, splitHead r⟩] := by
    simpa using ledBindings_pair_anode true o cid r hesp hled hne
  simp only [List.mem_cons, List.not_mem_nil, or_false] at hr
  rcases hr with rfl | rfl | rfl | rfl <;>
    exact ⟨by rw [hledr]; rfl, by decide, by decide⟩

/-- Witness for C6: concrete controller/LED/potentiometer components,
the LED anode bound to physical pin `GND_L2`, the potentiometer signal
bound to `3V3_R`. -/
theorem C6_pin_name_normalization_witness :
    ledDefineLines 0 (ledBindings [wEsp, wLed]
        [⟨"conn_1", "led_1", "anode", "esp8266_1", "GND_L2"⟩] "esp8266_1") =
      ["#define LED_PIN_1 GND"] ∧
    potDefineLines 0 (potBindings [wEsp, wPot]
        [⟨"conn_2", "pot_1", "signal", "esp8266_1", "3V3_R"⟩] "esp8266_1") =
      ["#define POT_PIN_1 3V3"] :=
  ⟨((C6_pin_name_normalization wEsp wLed wPot true true "conn_1" "conn_2"
      "GND_L2" "3V3_R" rfl rfl rfl (by decide) (by decide)).2.2 "GND_L2"
      (by decide)).1,
   (C6_pin_name_normalization wEsp wLed wPot true true "conn_1" "conn_2"
      "GND_L2" "3V3_R" rfl rfl rfl (by decide) (by decide)).2.1⟩

end Sim
